import Mathlib

/-!
Shallow embedding of the news worker pipeline (worker.py) and proofs of the
specified properties.  The worker fetches article records from a search API,
enriches each record with the full body text scraped from its URL, converts
each enriched record to a fixed feed schema, and publishes one JSON message
per record to a fanout exchange; a cycle runner drives all configured topic
queries with per-query error isolation.

External collaborators (the HTTP client, the newspaper extraction library and
the AMQP broker client) are modelled as explicit function parameters; the
orchestration logic itself is translated directly from the source.
-/

/-- JSON values, the dynamic data manipulated by the worker: response payloads,
article records and published message bodies. -/
inductive JValue where
  | null : JValue
  | bool (b : Bool) : JValue
  | num (n : Int) : JValue
  | str (s : String) : JValue
  | arr (xs : List JValue) : JValue
  | obj (kvs : List (String × JValue)) : JValue

/-- A Python dict with string keys, as an insertion-ordered association list
(JSON decoding never produces duplicate keys). -/
abbrev Dict := List (String × JValue)

/-- Lookup of a key in a dict, first occurrence. -/
def dictGet : Dict → String → Option JValue
  | [], _ => none
  | (k2, v) :: rest, k => if k2 = k then some v else dictGet rest k

/-- Python d.get(k, dflt): the value under the key, or the default. -/
def dictGetD (d : Dict) (k : String) (dflt : JValue) : JValue :=
  (dictGet d k).getD dflt

/-- Python d[k] = v on a dict: replaces the value of an existing key in place,
otherwise appends the binding at the end (insertion order). -/
def dictSet : Dict → String → JValue → Dict
  | [], k, v => [(k, v)]
  | (k2, v2) :: rest, k, v =>
      if k2 = k then (k2, v) :: rest else (k2, v2) :: dictSet rest k v

/-- Python truthiness of a JSON value: None, False, 0, empty string, empty
list and empty dict are falsy, everything else truthy. -/
def pyTruthy : JValue → Bool
  | .null => false
  | .bool b => b
  | .num n => decide (n ≠ 0)
  | .str s => decide (s ≠ "")
  | .arr xs => !xs.isEmpty
  | .obj kvs => !kvs.isEmpty

/-- Python `a or b`: the left operand when truthy, otherwise the right. -/
def pyOr (a b : JValue) : JValue :=
  if pyTruthy a then a else b

/-- Check whether a value is a JSON list (isinstance(v, list)). -/
def isListJ : JValue → Bool
  | .arr _ => true
  | _ => false

/-- Check whether a value is a JSON object (isinstance(v, dict)). -/
def isObjJ : JValue → Bool
  | .obj _ => true
  | _ => false

/-- Python exceptions that the worker code can raise or observe. -/
inductive PyError where
  | valueError (msg : String) : PyError
  | keyError (k : String) : PyError
  | attributeError (attr : String) : PyError
  | externalError (msg : String) : PyError
deriving DecidableEq, Repr

instance {ε α : Type} [DecidableEq ε] [DecidableEq α] : DecidableEq (Except ε α) :=
  fun a b =>
    match a, b with
    | .ok x, .ok y =>
        if h : x = y then .isTrue (by rw [h]) else .isFalse (by simp [h])
    | .ok _, .error _ => .isFalse (by simp)
    | .error _, .ok _ => .isFalse (by simp)
    | .error e, .error e2 =>
        if h : e = e2 then .isTrue (by rw [h]) else .isFalse (by simp [h])

/-- Python subscript d[k] on a dict: the value under the key, or a KeyError. -/
def dictGetItem (d : Dict) (k : String) : Except PyError JValue :=
  match dictGet d k with
  | some v => .ok v
  | none => .error (.keyError k)

/-- Python v.get(k, dflt) on a dynamic value: dict lookup with a default when
the value is a dict, an AttributeError otherwise. -/
def jvGetD (v : JValue) (k : String) (dflt : JValue) : Except PyError JValue :=
  match v with
  | .obj kvs => .ok (dictGetD kvs k dflt)
  | _ => .error (.attributeError "get")

/-- Environment lookup with a hardcoded default, modelling
os.getenv(key, default) over an abstract process environment. -/
def getenvD (env : String → Option String) (k dflt : String) : String :=
  (env k).getD dflt

/-- Configured API base URL (worker.py line 35): GNEWS_API_URL with its
hardcoded default. -/
def gnews_api_url (env : String → Option String) : String :=
  getenvD env "GNEWS_API_URL" "https://gnews.io/api/v4"

/-- Configured API key (worker.py line 36): GNEWS_API_KEY with its hardcoded
default. -/
def gnews_api_key (env : String → Option String) : String :=
  getenvD env "GNEWS_API_KEY" "60165e0fa0db3f16334fe9ddadc8334a"

/-- Request URL built by fetch_articles (worker.py line 49).  The f-string
interpolates the query, the configured API key and the limit into a URL whose
base is the literal text https://gnews.io/api/v4 written inline; the
configured gnews_api_url value does not occur in it. -/
def fetch_url (env : String → Option String) (query : String) (limit : Nat) : String :=
  "https://gnews.io/api/v4/search?q=" ++ query ++ "&apikey=" ++ gnews_api_key env
    ++ "&Lang=he&max=" ++ toString limit

/-- Response-payload handling of fetch_articles (worker.py lines 53 to 57):
payload.get(articles) or payload.get(data) or [], then a ValueError unless the
selected value is a list.  A non-dict payload fails at the .get attribute
access, as in Python. -/
def extract_articles (payload : JValue) : Except PyError (List JValue) :=
  match payload with
  | .obj kvs =>
      match pyOr (dictGetD kvs "articles" .null)
          (pyOr (dictGetD kvs "data" .null) (.arr [])) with
      | .arr xs => .ok xs
      | _ => .error (.valueError "Unexpected articles payload shape")
  | _ => .error (.attributeError "get")

/-- Enrichment loop of enrich_articles (worker.py lines 68 to 84).  The
enrich parameter abstracts enrich_article, that is the external newspaper3k
download and parse of one URL; a raised exception is an error result.  A
record whose url is missing or falsy is skipped; otherwise the record is
copied, full_content is set to the extracted text or to None on failure, and
the copy is appended to the output. -/
def enrich_articles (enrich : JValue → Except PyError String) : List Dict → List Dict
  | [] => []
  | item :: rest =>
      let url := dictGetD item "url" .null
      if pyTruthy url then
        let full_content : JValue :=
          match enrich url with
          | .ok text => .str text
          | .error _ => .null
        dictSet item "full_content" full_content :: enrich_articles enrich rest
      else
        enrich_articles enrich rest

/-- Fixed output schema of the worker (worker.py lines 23 to 32).  Python
dataclass fields are dynamically typed, so each field holds a JSON value. -/
structure ArticleFeed where
  article_id : JValue
  title : JValue
  article_body : JValue
  source : JValue
  url : JValue
  publisher : JValue
  publication_date : JValue
  recipients : JValue

/-- Python asdict on an ArticleFeed: the ordered dict of its fields in
declaration order. -/
def ArticleFeed.asdict (f : ArticleFeed) : Dict :=
  [("article_id", f.article_id), ("title", f.title),
   ("article_body", f.article_body), ("source", f.source), ("url", f.url),
   ("publisher", f.publisher), ("publication_date", f.publication_date),
   ("recipients", f.recipients)]

/-- Field mapping of convert_to_article_feed (worker.py lines 87 to 102),
with the two genuinely fallible Python operations, the subscript
article[source] and the .get attribute access on its result, modelled as
fallible; both are guarded by the isinstance check, as in the source. -/
def convert_to_article_feed (article : Dict) : Except PyError ArticleFeed := do
  let sourceName ←
    if isObjJ (dictGetD article "source" .null) then do
      let s ← dictGetItem article "source"
      jvGetD s "name" (.str "")
    else
      pure (JValue.str "")
  pure
    { article_id := dictGetD article "id" (.str "")
      title := dictGetD article "title" (.str "")
      article_body := pyOr (dictGetD article "full_content" (.str "")) (.str "")
      source := sourceName
      url := dictGetD article "url" (.str "")
      publisher := .str ""
      publication_date := dictGetD article "publishedAt" (.str "")
      recipients := .arr [] }

/-- Source name computed by convert_to_article_feed: the name field of a
structured source object, the empty string otherwise. -/
def sourceNameOf (article : Dict) : JValue :=
  match dictGetD article "source" .null with
  | .obj kvs => dictGetD kvs "name" (.str "")
  | _ => .str ""

/-- Total form of convert_to_article_feed, used to state that the fallible
translation always succeeds with this value. -/
def article_feed_of (article : Dict) : ArticleFeed :=
  { article_id := dictGetD article "id" (.str "")
    title := dictGetD article "title" (.str "")
    article_body := pyOr (dictGetD article "full_content" (.str "")) (.str "")
    source := sourceNameOf article
    url := dictGetD article "url" (.str "")
    publisher := .str ""
    publication_date := dictGetD article "publishedAt" (.str "")
    recipients := .arr [] }

/-- Hexadecimal digit character, lowercase, as produced by json.dumps escapes. -/
def hexDigit (n : Nat) : Char :=
  if n < 10 then Char.ofNat (48 + n) else Char.ofNat (87 + n)

/-- Escape of one character inside a JSON string literal, as json.dumps with
ensure_ascii=False performs it: quote, backslash and control characters are
escaped, everything else passes through. -/
def jsonEscapeChar (c : Char) : String :=
  if c = '\"' then "\\\""
  else if c = '\\' then "\\\\"
  else if c = '\n' then "\\n"
  else if c = '\r' then "\\r"
  else if c = '\t' then "\\t"
  else if c = Char.ofNat 8 then "\\b"
  else if c = Char.ofNat 12 then "\\f"
  else if c.toNat < 32 then
    "\\u00" ++ String.mk [hexDigit (c.toNat / 16), hexDigit (c.toNat % 16)]
  else
    String.singleton c

/-- Escape of a whole string for a JSON string literal. -/
def jsonEscape (s : String) : String :=
  String.join (s.data.map jsonEscapeChar)

mutual

/-- Serialization of a JSON value exactly as json.dumps(v, ensure_ascii=False)
renders it with the default separators, a comma-space between items and a
colon-space after keys. -/
def json_dumps : JValue → String
  | .null => "null"
  | .bool b => cond b "true" "false"
  | .num n => toString n
  | .str s => "\"" ++ jsonEscape s ++ "\""
  | .arr xs => "[" ++ String.intercalate ", " (jsonDumpsArr xs) ++ "]"
  | .obj kvs => "\x7b" ++ String.intercalate ", " (jsonDumpsObj kvs) ++ "\x7d"

/-- Serialization of the elements of a JSON array. -/
def jsonDumpsArr : List JValue → List String
  | [] => []
  | v :: vs => json_dumps v :: jsonDumpsArr vs

/-- Serialization of the members of a JSON object. -/
def jsonDumpsObj : List (String × JValue) → List String
  | [] => []
  | (k, v) :: kvs => ("\"" ++ jsonEscape k ++ "\": " ++ json_dumps v) :: jsonDumpsObj kvs

end

/-- Observable operations of publish_articles against the AMQP broker, in the
order the call performs them.  The publish operation carries the serialized
message body handed to basic_publish. -/
inductive BrokerOp where
  | openConn : BrokerOp
  | declareExchange : BrokerOp
  | publish (body : String) : BrokerOp
  | closeConn : BrokerOp
deriving DecidableEq, Repr

/-- Per-article publish loop of publish_articles (worker.py lines 113 to 126):
each record is converted to the feed schema and its asdict serialization is
published; the pub parameter abstracts the broker basic_publish call, whose
error aborts the loop at that point (no operation is recorded for a failed
publish).  The live code publishes the bare asdict message; the batch
envelope at lines 115 to 119 is commented out in the source. -/
def publish_loop (pub : String → Except PyError Unit) : List Dict →
    List BrokerOp × Except PyError Unit
  | [] => ([], .ok ())
  | article :: rest =>
      match convert_to_article_feed article with
      | .error e => ([], .error e)
      | .ok feed =>
          match pub (json_dumps (.obj feed.asdict)) with
          | .error e => ([], .error e)
          | .ok _ =>
              (.publish (json_dumps (.obj feed.asdict)) :: (publish_loop pub rest).1,
               (publish_loop pub rest).2)

/-- Broker interaction of publish_articles (worker.py lines 105 to 129): open
a fresh connection and channel, declare the exchange (the declare parameter
abstracts its outcome), publish one message per record, then close the
connection.  The close at line 128 is the last statement of the body with no
try or finally around the call, so it only runs when every preceding
operation succeeded; on any error the error propagates with no close
recorded. -/
def publish_articles (declare : Except PyError Unit)
    (pub : String → Except PyError Unit) (articles : List Dict) :
    List BrokerOp × Except PyError Unit :=
  match declare with
  | .error e => ([.openConn], .error e)
  | .ok _ =>
      match (publish_loop pub articles).2 with
      | .error e => (.openConn :: .declareExchange :: (publish_loop pub articles).1, .error e)
      | .ok _ =>
          (.openConn :: .declareExchange :: (publish_loop pub articles).1 ++ [.closeConn],
           .ok ())

/-- Fixed topic query list (worker.py line 42). -/
def FETCH_QUERIES : List String :=
  ["political", "health", "technology", "sports", "education"]

/-- Per-query outcome recorded by one cycle: either the query was processed
without error, or its error was caught and logged at line 144. -/
inductive CycleEvent where
  | succeeded (query : String) : CycleEvent
  | failed (query : String) (e : PyError) : CycleEvent
deriving DecidableEq, Repr

/-- Query a cycle event refers to. -/
def CycleEvent.query : CycleEvent → String
  | .succeeded q => q
  | .failed q _ => q

/-- Cycle runner run_cycle (worker.py lines 138 to 145): iterate the fixed
query list in order, run process_query on each inside try, and log a caught
error without aborting the loop.  The processQuery parameter abstracts
process_query, whose fetch, enrich and publish effects depend on the external
network. -/
def run_cycle (processQuery : String → Except PyError Unit) : List CycleEvent :=
  FETCH_QUERIES.map fun q =>
    match processQuery q with
    | .ok _ => .succeeded q
    | .error e => .failed q e

/-- Setting one key of a dict leaves lookups of other keys unchanged. -/
theorem dictGet_dictSet_ne (d : Dict) (k k2 : String) (v : JValue) (h : k ≠ k2) :
    dictGet (dictSet d k v) k2 = dictGet d k2 := by
  induction d with
  | nil => simp [dictSet, dictGet, h]
  | cons hd tl ih =>
      obtain ⟨k3, v3⟩ := hd
      by_cases h3 : k3 = k
      · subst h3
        simp [dictSet, dictGet, h]
      · simp [dictSet, dictGet, h3, ih]

/-- A truthy d.get(k) means the key is present with a truthy value. -/
theorem pyTruthy_dictGetD_null {d : Dict} {k : String}
    (h : pyTruthy (dictGetD d k .null) = true) :
    ∃ u, dictGet d k = some u ∧ pyTruthy u = true := by
  cases hg : dictGet d k with
  | none => simp [dictGetD, hg, pyTruthy] at h
  | some u => exact ⟨u, rfl, by simpa [dictGetD, hg] using h⟩

/-- Fallible field mapping always succeeds, with the total form as value. -/
theorem convert_to_article_feed_ok (article : Dict) :
    convert_to_article_feed article = .ok (article_feed_of article) := by
  cases hg : dictGet article "source" with
  | none =>
      simp only [convert_to_article_feed, article_feed_of, sourceNameOf,
        dictGetItem, dictGetD, hg]
      rfl
  | some v =>
      cases v <;>
        · simp only [convert_to_article_feed, article_feed_of, sourceNameOf,
            dictGetItem, dictGetD, hg]
          rfl

/-- C9: the feed normalizer is total: for every input dict, whatever the
presence, absence, or types of its fields, convert_to_article_feed returns a
normalized feed record and never an error. -/
theorem convert_to_article_feed_total (article : Dict) :
    ∃ r, convert_to_article_feed article = Except.ok r :=
  ⟨article_feed_of article, convert_to_article_feed_ok article⟩

/-- C8: a record whose source field is the object with name X normalizes to
source X, and a record with no source field normalizes to the empty string. -/
theorem convert_source_object_and_missing (article : Dict) (X : String) :
    (dictGet article "source" = some (JValue.obj [("name", JValue.str X)]) →
      ∃ r, convert_to_article_feed article = Except.ok r ∧ r.source = JValue.str X) ∧
    (dictGet article "source" = none →
      ∃ r, convert_to_article_feed article = Except.ok r ∧ r.source = JValue.str "") := by
  constructor
  · intro h
    refine ⟨article_feed_of article, convert_to_article_feed_ok article, ?_⟩
    simp [article_feed_of, sourceNameOf, dictGetD, h, dictGet]
  · intro h
    refine ⟨article_feed_of article, convert_to_article_feed_ok article, ?_⟩
    simp [article_feed_of, sourceNameOf, dictGetD, h]

/-- Witness for C8 at concrete records. -/
theorem convert_source_object_and_missing_witness :
    (∃ r, convert_to_article_feed [("source", JValue.obj [("name", JValue.str "X")])] =
      Except.ok r ∧ r.source = JValue.str "X") ∧
    (∃ r, convert_to_article_feed [("title", JValue.str "T")] =
      Except.ok r ∧ r.source = JValue.str "") :=
  ⟨(convert_source_object_and_missing [("source", JValue.obj [("name", JValue.str "X")])] "X").1 rfl,
   (convert_source_object_and_missing [("title", JValue.str "T")] "X").2 rfl⟩

/-- C10: a record whose source field is a plain string normalizes to the
empty source, discarding the string value. -/
theorem convert_source_string_discarded (article : Dict) (s : String)
    (h : dictGet article "source" = some (JValue.str s)) :
    ∃ r, convert_to_article_feed article = Except.ok r ∧ r.source = JValue.str "" := by
  refine ⟨article_feed_of article, convert_to_article_feed_ok article, ?_⟩
  simp [article_feed_of, sourceNameOf, dictGetD, h]

/-- Witness for C10 at a concrete record. -/
theorem convert_source_string_discarded_witness :
    ∃ r, convert_to_article_feed [("source", JValue.str "CNN")] = Except.ok r ∧
      r.source = JValue.str "" :=
  convert_source_string_discarded [("source", JValue.str "CNN")] "CNN" rfl

/-- C6: the request URL built by fetch_articles ignores the configured
GNEWS_API_URL base: with the base overridden to http://other the configured
value changes but the built URL is the one built under the default
environment, whose base is the literal https://gnews.io/api/v4. -/
theorem fetch_url_ignores_configured_base :
    gnews_api_url (fun k => if k = "GNEWS_API_URL" then some "http://other" else none) =
      "http://other" ∧
    fetch_url (fun k => if k = "GNEWS_API_URL" then some "http://other" else none)
        "technology" 10 =
      fetch_url (fun _ => none) "technology" 10 ∧
    fetch_url (fun _ => none) "technology" 10 =
      "https://gnews.io/api/v4/search?q=technology&apikey=60165e0fa0db3f16334fe9ddadc8334a&Lang=he&max=10" := by
  refine ⟨rfl, rfl, ?_⟩
  decide

/-- C3: every record in the enricher output carries a url key with a truthy
value, so a record whose url field is missing is never forwarded downstream. -/
theorem enrich_articles_output_has_url (enrich : JValue → Except PyError String)
    (arts : List Dict) (o : Dict) (ho : o ∈ enrich_articles enrich arts) :
    ∃ u, dictGet o "url" = some u ∧ pyTruthy u = true := by
  induction arts with
  | nil => simp [enrich_articles] at ho
  | cons item rest ih =>
      cases hu : pyTruthy (dictGetD item "url" JValue.null) with
      | false =>
          simp only [enrich_articles, hu] at ho
          exact ih (by simpa using ho)
      | true =>
          simp only [enrich_articles, hu, if_true] at ho
          rcases List.mem_cons.mp ho with rfl | h2
          · obtain ⟨u, hg, ht⟩ := pyTruthy_dictGetD_null hu
            refine ⟨u, ?_, ht⟩
            rw [dictGet_dictSet_ne _ _ _ _ (by decide)]
            exact hg
          · exact ih h2

/-- Witness for C3: the output record of a concrete enrichment run has a url. -/
theorem enrich_articles_output_has_url_witness :
    ∃ u, dictGet [("url", JValue.str "http://x"), ("full_content", JValue.str "Full text")]
        "url" = some u ∧ pyTruthy u = true :=
  enrich_articles_output_has_url (fun _ => .ok "Full text")
    [[("url", JValue.str "http://x")]]
    [("url", JValue.str "http://x"), ("full_content", JValue.str "Full text")]
    (List.mem_singleton.mpr rfl)

/-- C4: a record with a truthy url whose enrichment fails is retained in the
output with a null full_content field, and the output has one record for
every url-bearing input record, so the rest of the batch is unaffected. -/
theorem enrich_articles_failure_retained (enrich : JValue → Except PyError String)
    (arts : List Dict) :
    (∀ item u e, item ∈ arts → dictGet item "url" = some u → pyTruthy u = true →
      enrich u = .error e →
      dictSet item "full_content" JValue.null ∈ enrich_articles enrich arts) ∧
    (enrich_articles enrich arts).length =
      (arts.filter fun i => pyTruthy (dictGetD i "url" JValue.null)).length := by
  constructor
  · intro item u e hmem hget htr herr
    induction arts with
    | nil => simp at hmem
    | cons a rest ih =>
        rcases List.mem_cons.mp hmem with rfl | h2
        · have hd : dictGetD item "url" JValue.null = u := by simp [dictGetD, hget]
          simp only [enrich_articles, hd, htr, if_true, herr]
          exact List.mem_cons_self _ _
        · cases htr2 : pyTruthy (dictGetD a "url" JValue.null) with
          | false =>
              simp only [enrich_articles, htr2]
              exact ih h2
          | true =>
              simp only [enrich_articles, htr2, if_true]
              exact List.mem_cons_of_mem _ (ih h2)
  · induction arts with
    | nil => rfl
    | cons a rest ih =>
        cases htr : pyTruthy (dictGetD a "url" JValue.null) with
        | false => simp [enrich_articles, htr, List.filter_cons, ih]
        | true => simp [enrich_articles, htr, List.filter_cons, ih]

/-- Witness for C4 on a concrete record whose enrichment fails. -/
theorem enrich_articles_failure_retained_witness :
    dictSet [("url", JValue.str "http://x")] "full_content" JValue.null ∈
      enrich_articles (fun _ => .error (.externalError "download failed"))
        [[("url", JValue.str "http://x")]] ∧
    (enrich_articles (fun _ => .error (.externalError "download failed"))
        [[("url", JValue.str "http://x")]]).length =
      ([[("url", JValue.str "http://x")]].filter
        fun i => pyTruthy (dictGetD i "url" JValue.null)).length :=
  ⟨(enrich_articles_failure_retained _ _).1 [("url", JValue.str "http://x")]
      (JValue.str "http://x") (.externalError "download failed")
      (List.mem_singleton.mpr rfl) rfl rfl rfl,
   (enrich_articles_failure_retained _ _).2⟩

/-- Counterexample for C5: a payload whose articles key holds a falsy
non-list value (the number 0) returns the empty list without raising,
although the claim requires an error whenever the value found for the
article list is not a list. -/
theorem extract_articles_falsy_nonlist_no_error :
    dictGet [("articles", JValue.num 0)] "articles" = some (JValue.num 0) ∧
    isListJ (JValue.num 0) = false ∧
    extract_articles (JValue.obj [("articles", JValue.num 0)]) = Except.ok [] :=
  ⟨rfl, rfl, rfl⟩

/-- C5 as amended: the fetcher selects the first Python-truthy value among
the articles key, the data key and the empty-list fallback; a truthy list
under articles is returned, a truthy list under data is returned when the
articles value is absent or falsy, the empty list is returned when neither
key is present, and a ValueError is raised exactly when the selected truthy
value is not a list. -/
theorem extract_articles_characterization (kvs : Dict) :
    (∀ x xs, dictGet kvs "articles" = some (JValue.arr (x :: xs)) →
      extract_articles (JValue.obj kvs) = Except.ok (x :: xs)) ∧
    (∀ x xs, pyTruthy (dictGetD kvs "articles" JValue.null) = false →
      dictGet kvs "data" = some (JValue.arr (x :: xs)) →
      extract_articles (JValue.obj kvs) = Except.ok (x :: xs)) ∧
    (dictGet kvs "articles" = none → dictGet kvs "data" = none →
      extract_articles (JValue.obj kvs) = Except.ok []) ∧
    (∀ v, v = pyOr (dictGetD kvs "articles" JValue.null)
        (pyOr (dictGetD kvs "data" JValue.null) (JValue.arr [])) →
      pyTruthy v = true → isListJ v = false →
      extract_articles (JValue.obj kvs) =
        Except.error (.valueError "Unexpected articles payload shape")) := by
  refine ⟨?_, ?_, ?_, ?_⟩
  · intro x xs h
    simp [extract_articles, dictGetD, h, pyOr, pyTruthy]
  · intro x xs hf h
    simp only [extract_articles, pyOr]
    rw [if_neg (by simp [hf])]
    simp [dictGetD, h, pyTruthy]
  · intro h1 h2
    simp [extract_articles, dictGetD, h1, h2, pyOr, pyTruthy]
  · intro v hv ht hl
    simp only [extract_articles]
    rw [← hv]
    cases v with
    | arr xs => simp [isListJ] at hl
    | null => rfl
    | bool b => rfl
    | num n => rfl
    | str s => rfl
    | obj kvs2 => rfl

/-- Witness for C5 as amended, on a truthy list under articles and on a
truthy non-list selected value. -/
theorem extract_articles_characterization_witness :
    extract_articles (JValue.obj [("articles", JValue.arr [JValue.num 1])]) =
      Except.ok [JValue.num 1] ∧
    extract_articles (JValue.obj [("articles", JValue.str "oops")]) =
      Except.error (.valueError "Unexpected articles payload shape") :=
  ⟨(extract_articles_characterization [("articles", JValue.arr [JValue.num 1])]).1
      (JValue.num 1) [] rfl,
   (extract_articles_characterization [("articles", JValue.str "oops")]).2.2.2
      (JValue.str "oops") rfl rfl rfl⟩

/-- Counterexample for C7: when basic_publish raises on the first record, the
call propagates the error after having opened the connection, and no close of
the connection is performed. -/
theorem publish_error_leaves_connection_open :
    BrokerOp.openConn ∈ (publish_articles (.ok ())
        (fun _ => .error (.externalError "publish failed"))
        [[("url", JValue.str "http://x")]]).1 ∧
    BrokerOp.closeConn ∉ (publish_articles (.ok ())
        (fun _ => .error (.externalError "publish failed"))
        [[("url", JValue.str "http://x")]]).1 ∧
    (publish_articles (.ok ()) (fun _ => .error (.externalError "publish failed"))
        [[("url", JValue.str "http://x")]]).2 =
      Except.error (.externalError "publish failed") := by
  decide

/-- C7 as amended: on a call that completes without error the connection is
explicitly closed as the last broker operation, and on a call that propagates
a declare or publish error no close of the connection is performed. -/
theorem publish_articles_close_on_ok_only (declare : Except PyError Unit)
    (pub : String → Except PyError Unit) (articles : List Dict) :
    ((publish_articles declare pub articles).2 = Except.ok () →
      (publish_articles declare pub articles).1.getLast? = some BrokerOp.closeConn) ∧
    (∀ e, (publish_articles declare pub articles).2 = Except.error e →
      BrokerOp.closeConn ∉ (publish_articles declare pub articles).1) := by
  have hloop : ∀ arts, BrokerOp.closeConn ∉ (publish_loop pub arts).1 := by
    intro arts
    induction arts with
    | nil => simp [publish_loop]
    | cons a rest ih =>
        simp only [publish_loop]
        cases hc : convert_to_article_feed a with
        | error e => simp
        | ok feed =>
            cases hp : pub (json_dumps (.obj feed.asdict)) with
            | error e => simp [hp]
            | ok u => simp [hp, ih]
  constructor
  · intro h
    cases declare with
    | error e => simp [publish_articles] at h
    | ok u =>
        cases hl : (publish_loop pub articles).2 with
        | error e => simp [publish_articles, hl] at h
        | ok u2 =>
            simp only [publish_articles, hl]
            exact List.getLast?_concat _
  · intro e he
    cases declare with
    | error e2 => simp [publish_articles]
    | ok u =>
        cases hl : (publish_loop pub articles).2 with
        | error e2 =>
            simp only [publish_articles, hl]
            simp [hloop articles]
        | ok u2 => simp [publish_articles, hl] at he

/-- Witness for C7 as amended: a successful call ends by closing the
connection, and a failing call never closes it. -/
theorem publish_articles_close_on_ok_only_witness :
    (publish_articles (.ok ()) (fun _ => Except.ok ())
        [[("url", JValue.str "http://x")]]).1.getLast? = some BrokerOp.closeConn ∧
    BrokerOp.closeConn ∉ (publish_articles (.ok ())
        (fun _ => Except.error (.externalError "late failure"))
        [[("url", JValue.str "http://x")]]).1 :=
  ⟨(publish_articles_close_on_ok_only (.ok ()) (fun _ => Except.ok ())
      [[("url", JValue.str "http://x")]]).1 rfl,
   (publish_articles_close_on_ok_only (.ok ())
      (fun _ => Except.error (.externalError "late failure"))
      [[("url", JValue.str "http://x")]]).2 (.externalError "late failure") rfl⟩

/-- When every basic_publish succeeds, the loop publishes one message per
record (conversion is total, so no record is skipped). -/
theorem publish_loop_ok_length (arts : List Dict) :
    (publish_loop (fun _ => Except.ok ()) arts).1.length = arts.length := by
  induction arts with
  | nil => rfl
  | cons a rest ih =>
      simp only [publish_loop, convert_to_article_feed_ok a]
      simp [ih]

/-- Concrete fetched record of the end-to-end scenario in the spec. -/
def scenarioRecord : Dict :=
  [("id", JValue.str "1"), ("url", JValue.str "http://x"),
   ("title", JValue.str "T"), ("source", JValue.obj [("name", JValue.str "S")]),
   ("publishedAt", JValue.str "2024-01-01T00:00:00Z")]

/-- C1: on the scenario record, the fetch payload extraction yields exactly
that record, and enriching it with body text Full text and publishing yields
exactly one published message whose body is exactly the specified JSON
object; in general one message is published per record. -/
theorem end_to_end_single_article_message :
    extract_articles (JValue.obj [("articles", JValue.arr [JValue.obj scenarioRecord])]) =
      Except.ok [JValue.obj scenarioRecord] ∧
    publish_articles (Except.ok ()) (fun _ => Except.ok ())
        (enrich_articles (fun _ => Except.ok "Full text") [scenarioRecord]) =
      ([BrokerOp.openConn, BrokerOp.declareExchange,
        BrokerOp.publish "\x7b\"article_id\": \"1\", \"title\": \"T\", \"article_body\": \"Full text\", \"source\": \"S\", \"url\": \"http://x\", \"publisher\": \"\", \"publication_date\": \"2024-01-01T00:00:00Z\", \"recipients\": []\x7d",
        BrokerOp.closeConn], Except.ok ()) ∧
    (∀ arts, (publish_loop (fun _ => Except.ok ()) arts).1.length = arts.length) :=
  ⟨rfl, rfl, publish_loop_ok_length⟩

/-- C2: the cycle runner records one outcome per configured query in order,
whatever errors process_query raises, so no failure of one query prevents
any other query in the same cycle from being attempted. -/
theorem run_cycle_attempts_every_query (processQuery : String → Except PyError Unit) :
    (run_cycle processQuery).map CycleEvent.query = FETCH_QUERIES := by
  simp only [run_cycle, List.map_map]
  have h : ∀ q ∈ FETCH_QUERIES,
      (CycleEvent.query ∘ fun q =>
        match processQuery q with
        | .ok _ => CycleEvent.succeeded q
        | .error e => CycleEvent.failed q e) q = id q := by
    intro q _
    simp only [Function.comp_apply, id_eq]
    cases h : processQuery q <;> simp [h, CycleEvent.query]
  rw [List.map_congr_left h, List.map_id]
